import Mathlib

/-!
# Verification of the nanobot multi-tenant agent core

Shallow embedding of the tenant-scoped agent execution core of the
`nanobot` repository:

* `MultiTenantAgentLoop.switch_workspace` / `_ensure_initialized` /
  `_register_default_tools` (src/nanobot/agent/multi_tenant_loop.py)
* `MultiTenantAgentLoop.process_direct` (same file)
* `ReportGenerator._call_llm_with_retry`
  (src/nanobot/services/report_generator.py and report_generator_simple.py)
* `WorkspaceManager.create_workspace` / `list_workspaces`
  (src/nanobot/workspace/manager.py)
* `UserConfig.from_dict` and friends (src/nanobot/services/user_config.py)
* `UserConfigManager.list_users` (src/nanobot/services/user_config.py)

Python state mutation is modelled by explicit state passing; `raise` is
modelled by `Except`-valued results paired with the state as mutated up to
the raise point.  Machine-level concerns (actual file I/O, JSON encoding)
are modelled at the structural level: a JSON file holds the dictionary that
`json.dumps` was given, and `json.loads` of it returns that dictionary.
-/

/-! ## Tools and tenant-scoped components (multi_tenant_loop.py) -/

/-- The tools registered by `_register_default_tools`
(multi_tenant_loop.py lines 128-162).  `exec` carries the `working_dir`
it was constructed with (`str(self.current_workspace)`); the other tools'
construction parameters are not tenant-relevant for the claims. -/
inductive Tool where
  | readFile
  | writeFile
  | editFile
  | listDir
  | exec (workingDir : Option String)
  | webSearch
  | webFetch
  | message
  | spawn
  | cron
deriving DecidableEq, Repr

/-- A tenant-scoped component (`ContextBuilder`, `SessionManager`,
`SubagentManager`): constructed bound to a workspace path.  The `id`
field models Python object identity: every construction uses a fresh id
drawn from the loop state's `nextId` counter. -/
structure Component where
  id : Nat
  workspace : String
deriving DecidableEq, Repr

/-- The `ToolRegistry`: constructed empty; tools are then registered in
order.  `id` models object identity as for `Component`. -/
structure Registry where
  id : Nat
  tools : List Tool
deriving DecidableEq, Repr

/-- The mutable fields of a `MultiTenantAgentLoop` that
`switch_workspace` / `_ensure_initialized` touch
(multi_tenant_loop.py lines 95-104 and 206-215), plus the `nextId`
object-identity counter of the embedding. -/
structure LoopState where
  currentUserId : Option String
  currentWorkspace : Option String
  workspaceAttr : Option String
  context : Option Component
  sessions : Option Component
  tools : Option Registry
  subagents : Option Component
  nextId : Nat
deriving DecidableEq, Repr

/-- The component fields as set by `__init__`
(multi_tenant_loop.py lines 95-104): no active tenant, no components. -/
def initialLoopState : LoopState :=
  { currentUserId := none
    currentWorkspace := none
    workspaceAttr := none
    context := none
    sessions := none
    tools := none
    subagents := none
    nextId := 0 }

/-- `WorkspaceManager._get_workspace_path` / `get_workspace`
(manager.py lines 134-156): `base_path / f"user_{user_id}"`. -/
def getWorkspacePath (basePath uid : String) : String :=
  basePath ++ "/user_" ++ uid

/-- The standard tool set in the order `_register_default_tools` registers
it (multi_tenant_loop.py lines 128-162); the cron tool only when a
`cron_service` is configured. -/
def standardTools (workingDir : Option String) (cronService : Bool) : List Tool :=
  [Tool.readFile, Tool.writeFile, Tool.editFile, Tool.listDir,
   Tool.exec workingDir, Tool.webSearch, Tool.webFetch,
   Tool.message, Tool.spawn] ++ (if cronService then [Tool.cron] else [])

/-- `_register_default_tools` (multi_tenant_loop.py lines 128-162):
returns early if `self._tools is None`, otherwise registers the standard
tools one after another on the registry.  Registration order is kept as
the list order.  `ToolRegistry.register` itself is not under src/;
modelled from the spec (section 4.2): a name-keyed catalogue extended by
`register`. -/
def registerDefaultTools (cronService : Bool) (st : LoopState) : LoopState :=
  match st.tools with
  | none => st
  | some reg =>
    { st with tools := some { reg with
        tools := reg.tools ++ standardTools st.currentWorkspace cronService } }

/-- `_ensure_initialized` (multi_tenant_loop.py lines 109-126): raises
`RuntimeError` when no workspace is active; does nothing when
`self._context` is already set; otherwise constructs fresh
`ContextBuilder`, `SessionManager`, `ToolRegistry`, `SubagentManager`
bound to the current workspace and registers the default tools. -/
def ensureInitialized (cronService : Bool) (st : LoopState) : Except String LoopState :=
  match st.currentWorkspace with
  | none =>
    Except.error "No workspace is currently active. Call switch_workspace() first."
  | some w =>
    if st.context.isSome then
      Except.ok st
    else
      let st' : LoopState :=
        { st with
          context := some { id := st.nextId, workspace := w }
          sessions := some { id := st.nextId + 1, workspace := w }
          tools := some { id := st.nextId + 2, tools := [] }
          subagents := some { id := st.nextId + 3, workspace := w }
          nextId := st.nextId + 4 }
      Except.ok (registerDefaultTools cronService st')

/-- The `ValueError` message raised by `switch_workspace` when the
workspace does not exist (multi_tenant_loop.py lines 200-202). -/
def tenantNotFoundMsg (uid : String) : String :=
  "Workspace for user " ++ uid ++ " does not exist. " ++
  "Create it first using workspace_manager.create_workspace()"

/-- The slow path of `switch_workspace`
(multi_tenant_loop.py lines 198-221): resolve the path, raise
`ValueError` if it does not exist on disk, otherwise reset the four
component slots, update the current context, and re-initialize.
`existsFS` models `Path.exists` for the resolved workspace path.
The returned state is the state as mutated up to the return or raise. -/
def switchWorkspaceSlow (cronService : Bool) (basePath : String)
    (existsFS : String → Bool) (st : LoopState) (uid : String) :
    Except String String × LoopState :=
  let workspace := getWorkspacePath basePath uid
  if existsFS workspace = false then
    (Except.error (tenantNotFoundMsg uid), st)
  else
    let st1 : LoopState :=
      { st with context := none, sessions := none, tools := none, subagents := none }
    let st2 : LoopState :=
      { st1 with
        workspaceAttr := some workspace
        currentWorkspace := some workspace
        currentUserId := some uid }
    match ensureInitialized cronService st2 with
    | Except.error e => (Except.error e, st2)
    | Except.ok st3 => (Except.ok workspace, st3)

/-- `switch_workspace` (multi_tenant_loop.py lines 164-221).  Fast path
(lines 193-196): `if user_id == self.current_user_id and
self.current_workspace:` return the cached path unchanged; otherwise the
slow path. -/
def switchWorkspace (cronService : Bool) (basePath : String)
    (existsFS : String → Bool) (st : LoopState) (uid : String) :
    Except String String × LoopState :=
  match st.currentUserId, st.currentWorkspace with
  | some cu, some w =>
    if cu = uid then (Except.ok w, st)
    else switchWorkspaceSlow cronService basePath existsFS st uid
  | _, _ => switchWorkspaceSlow cronService basePath existsFS st uid

/-- The object identities of the tenant-scoped components currently held
by the loop state. -/
def oldComponentIds (st : LoopState) : List Nat :=
  (st.context.map Component.id).toList ++
  (st.sessions.map Component.id).toList ++
  (st.tools.map Registry.id).toList ++
  (st.subagents.map Component.id).toList

/-- Identity-counter discipline of the embedding: every held component id
was drawn from a past value of the counter, hence is below `nextId`. -/
def IdsWellFormed (st : LoopState) : Prop :=
  ∀ i ∈ oldComponentIds st, i < st.nextId

/-! ## The agent execution loop (`process_direct`) -/

/-- One tool call from the model's reply (id, name, serialized
arguments). -/
structure ToolCall where
  id : String
  name : String
  arguments : String
deriving DecidableEq, Repr

/-- The provider's reply: optional text content plus requested tool
calls. -/
structure ChatResponse where
  content : Option String
  toolCalls : List ToolCall
deriving DecidableEq, Repr

/-- Modelled from the spec: `response.has_tool_calls` of the provider
reply type (not under src/) — "if the model's reply carries zero tool
calls → Done. If it carries one or more tool calls → Acting"
(spec section 4.4), i.e. the reply's tool-call list is nonempty. -/
def ChatResponse.hasToolCalls (r : ChatResponse) : Bool :=
  !r.toolCalls.isEmpty

/-- The collaborators `process_direct` uses, abstracted: the LLM provider
(`provider.chat`), the context builder's message operations
(`build_messages`, `add_assistant_message`, `add_tool_result` — not under
src/), the tool dispatcher (`self._tools.execute`), and the configured
`max_iterations` (default 20).  The claims proved below hold for every
instantiation, so no behaviour of these collaborators is assumed. -/
structure AgentEnv (M : Type) where
  chat : List M → ChatResponse
  buildMessages : List (String × String) → String → List M
  addAssistantMessage : List M → Option String → List ToolCall → List M
  executeTool : List M → ToolCall → String
  addToolResult : List M → ToolCall → String → List M
  maxIterations : Nat

/-- The `while iteration < self.max_iterations` loop of `process_direct`
(multi_tenant_loop.py lines 352-395), unrolled on the number of remaining
permitted iterations (`remaining = max_iterations - iteration`).  Returns
(final iteration counter, `final_content` — `none` when the loop exited by
exhausting the bound, the final message buffer).  Each round: call the
provider; with tool calls, append the assistant turn, execute each call
in emission order appending its result turn, and continue; without tool
calls, stop with the reply content. -/
def agentLoopGo {M : Type} (env : AgentEnv M) :
    Nat → Nat → List M → Nat × Option String × List M
  | 0, iteration, messages => (iteration, none, messages)
  | remaining + 1, iteration, messages =>
    let iteration := iteration + 1
    let response := env.chat messages
    if response.hasToolCalls then
      let messages := env.addAssistantMessage messages response.content response.toolCalls
      let messages := response.toolCalls.foldl
        (fun ms tc => env.addToolResult ms tc (env.executeTool ms tc)) messages
      agentLoopGo env remaining iteration messages
    else
      (iteration, response.content, messages)

/-- Modelled from the spec: the `SessionManager` (not under src/),
spec section 4.3 — `get_or_create(key) -> Session` (created lazily) and
`save(session)` (full overwrite of the persisted representation for that
key).  `store` is the persisted key → message-list map (newest binding
first); `saveTrace` records every `save` call in order, so "persisted
exactly once" is observable. -/
structure SessionsState where
  store : List (String × List (String × String))
  saveTrace : List (String × List (String × String))
deriving DecidableEq, Repr

/-- Modelled from the spec: `SessionManager.get_or_create` — the session
for `key`, lazily created empty. -/
def getOrCreate (ss : SessionsState) (key : String) : List (String × String) :=
  (ss.store.lookup key).getD []

/-- Modelled from the spec: `SessionManager.save` — full overwrite of the
persisted representation for the session's key; the call is also recorded
on the trace. -/
def saveSession (ss : SessionsState) (key : String)
    (msgs : List (String × String)) : SessionsState :=
  { store := (key, msgs) :: ss.store
    saveTrace := ss.saveTrace ++ [(key, msgs)] }

/-- The fixed fallback used when the loop exhausts its iteration budget
(multi_tenant_loop.py line 398). -/
def fallbackMessage : String :=
  "I've completed processing but have no response to give."

/-- What one `process_direct` invocation produces: the returned response,
the session store afterwards, and the loop's final iteration counter. -/
structure ProcessOutcome where
  response : String
  sessions : SessionsState
  iterations : Nat
deriving Repr

/-- `process_direct` (multi_tenant_loop.py lines 296-405), given an
already-initialized workspace: fetch the session, build the message
buffer, run the bounded agent loop, substitute the fixed fallback when
`final_content` is `None`, then append the user turn and the assistant
turn to the session and save it (lines 397-403).  The tool-context
setters (lines 331-341) touch no state that the claims observe. -/
def processDirect {M : Type} (env : AgentEnv M) (ss : SessionsState)
    (sessionKey content : String) : ProcessOutcome :=
  let session := getOrCreate ss sessionKey
  let messages := env.buildMessages session content
  let r := agentLoopGo env env.maxIterations 0 messages
  let finalContent := r.2.1.getD fallbackMessage
  let session := session ++ [("user", content)]
  let session := session ++ [("assistant", finalContent)]
  let ss := saveSession ss sessionKey session
  { response := finalContent, sessions := ss, iterations := r.1 }

/-! ## The retrying invocation wrapper (`_call_llm_with_retry`) -/

/-- What one attempt of `_call_llm_with_retry`'s `try` block can raise:
an activation failure (`switch_workspace` raising `ValueError`, carrying
its message) or any other failure of `process_direct`. -/
inductive AttemptError where
  | activation (msg : String)
  | processFailure (msg : String)
deriving DecidableEq, Repr

/-- The aggregate `Exception` raised after all retries fail
(report_generator.py line 410): it reports the retry count and the last
underlying cause (`last_error`, `none` only if no attempt ran). -/
structure RetryFailure where
  maxRetries : Nat
  lastCause : Option AttemptError
deriving DecidableEq, Repr

/-- The observable outcome of `_call_llm_with_retry`: how many attempts
ran, the `asyncio.sleep` durations in order (seconds, as rationals), and
the result or aggregate error. -/
structure RetryOutcome where
  attemptsMade : Nat
  waits : List ℚ
  result : Except RetryFailure String
deriving Repr

/-- The `for attempt in range(self.max_retries)` loop of
`_call_llm_with_retry` (report_generator.py lines 374-410), unrolled on
the remaining permitted attempts (`remaining = max_retries - i`).
`oracle i` is the outcome of the `try` block of attempt `i` (0-based):
switch to the user's workspace and run `process_direct`.  On success the
response is returned at once; on failure `last_error` is recorded and,
when `attempt < max_retries - 1`, a sleep of
`retry_delay * (attempt + 1)` seconds precedes the next attempt; after
the loop the aggregate error carrying `last_error` is raised.
report_generator_simple.py lines 288-329 is the same code with
`retry_delay` fixed to `1.0`. -/
def retryGo (oracle : Nat → Except AttemptError String) (d : ℚ)
    (maxRetries : Nat) : Nat → Nat → Option AttemptError → RetryOutcome
  | 0, i, lastErr => ⟨i, [], Except.error ⟨maxRetries, lastErr⟩⟩
  | remaining + 1, i, _lastErr =>
    match oracle i with
    | Except.ok s => ⟨i + 1, [], Except.ok s⟩
    | Except.error e =>
      let rest := retryGo oracle d maxRetries remaining (i + 1) (some e)
      if i < maxRetries - 1 then
        ⟨rest.attemptsMade, d * ((i + 1 : Nat) : ℚ) :: rest.waits, rest.result⟩
      else
        ⟨rest.attemptsMade, rest.waits, rest.result⟩

/-- `_call_llm_with_retry` with the agent loop configured
(report_generator.py lines 365-410): run the attempt loop from attempt 0
with `last_error = None`. -/
def callLLMWithRetry (oracle : Nat → Except AttemptError String)
    (maxRetries : Nat) (d : ℚ) : RetryOutcome :=
  retryGo oracle d maxRetries maxRetries 0 none

/-- The `try` block of one attempt, tied to the embedded
`switch_workspace` (report_generator.py lines 383-394): the attempt first
calls `self.agent_loop.switch_workspace(user_id)`; if that raises, the
generic `except Exception` of the wrapper sees the activation failure;
otherwise the attempt's outcome is that of `process_direct`
(abstracted as `processOutcome`).  A `TenantNotFound` activation failure
leaves the loop state unchanged, so consecutive attempts see the same
state. -/
def attemptViaLoop (cronService : Bool) (basePath : String)
    (existsFS : String → Bool) (st : LoopState) (uid : String)
    (processOutcome : Except AttemptError String) : Except AttemptError String :=
  match (switchWorkspace cronService basePath existsFS st uid).1 with
  | Except.error msg => Except.error (AttemptError.activation msg)
  | Except.ok _ => processOutcome

/-! ## Tenant configuration (`user_config.py`) -/

/-- A JSON value as it appears in the `preferences` / `custom_data`
dictionaries of `config.json`. -/
inductive JsonVal where
  | str (s : String)
  | num (n : Int)
  | list (xs : List String)
deriving DecidableEq, Repr

/-- `UserWatchlist` (user_config.py lines 10-30): four ordered string
sequences. -/
structure UserWatchlist where
  stocks : List String
  influencers : List String
  keywords : List String
  sectors : List String
deriving DecidableEq, Repr

/-- `UserWatchlist()` with the dataclass field defaults: all four
sequences empty. -/
def UserWatchlist.empty : UserWatchlist := ⟨[], [], [], []⟩

/-- `UserWatchlist.from_dict` (user_config.py lines 21-30): falsy input
(absent or empty dict) gives the defaults; otherwise each sequence is
`data.get(key, [])`. -/
def UserWatchlist.fromDict (data : Option (List (String × List String))) :
    UserWatchlist :=
  match data with
  | none => UserWatchlist.empty
  | some d =>
    if d.isEmpty then UserWatchlist.empty
    else
      { stocks := (d.lookup "stocks").getD []
        influencers := (d.lookup "influencers").getD []
        keywords := (d.lookup "keywords").getD []
        sectors := (d.lookup "sectors").getD [] }

/-- `UserPreferences` (user_config.py lines 33-59). -/
structure UserPreferences where
  report_frequency : String
  report_time : String
  report_format : String
  language : String
  max_report_length : Int
  notification_channels : List String
deriving DecidableEq, Repr

/-- `UserPreferences.default()` = the dataclass field defaults
(user_config.py lines 36-48). -/
def UserPreferences.defaults : UserPreferences :=
  { report_frequency := "daily"
    report_time := "09:00"
    report_format := "markdown"
    language := "zh"
    max_report_length := 5000
    notification_channels := ["push"] }

/-- Field access used by `UserPreferences.from_dict`: a present
string-valued entry overrides the dataclass default. -/
def getStrField (d : List (String × JsonVal)) (key dflt : String) : String :=
  match d.lookup key with
  | some (JsonVal.str s) => s
  | _ => dflt

/-- Field access used by `UserPreferences.from_dict` for the integer
field. -/
def getNumField (d : List (String × JsonVal)) (key : String) (dflt : Int) : Int :=
  match d.lookup key with
  | some (JsonVal.num n) => n
  | _ => dflt

/-- Field access used by `UserPreferences.from_dict` for the string-list
field. -/
def getListField (d : List (String × JsonVal)) (key : String)
    (dflt : List String) : List String :=
  match d.lookup key with
  | some (JsonVal.list xs) => xs
  | _ => dflt

/-- `UserPreferences.from_dict` (user_config.py lines 50-59): falsy input
gives the defaults; otherwise the dict is filtered to the declared fields
and applied as keyword arguments, so each declared field takes the dict's
value when present and the dataclass default when absent. -/
def UserPreferences.fromDict (data : Option (List (String × JsonVal))) :
    UserPreferences :=
  match data with
  | none => UserPreferences.defaults
  | some d =>
    if d.isEmpty then UserPreferences.defaults
    else
      { report_frequency := getStrField d "report_frequency" "daily"
        report_time := getStrField d "report_time" "09:00"
        report_format := getStrField d "report_format" "markdown"
        language := getStrField d "language" "zh"
        max_report_length := getNumField d "max_report_length" 5000
        notification_channels := getListField d "notification_channels" ["push"] }

/-- The dictionary persisted as a tenant's `config.json`, at the
structural level (field present ↔ `Option.isSome`). -/
structure ConfigDict where
  user_id : String
  created_at : Option String
  updated_at : Option String
  version : Option String
  watchlist : Option (List (String × List String))
  preferences : Option (List (String × JsonVal))
  custom_data : Option (List (String × JsonVal))
deriving DecidableEq, Repr

/-- `UserConfig` (user_config.py lines 62-71). -/
structure UserConfig where
  user_id : String
  created_at : String
  updated_at : String
  watchlist : UserWatchlist
  preferences : UserPreferences
  custom_data : List (String × JsonVal)
  version : String
deriving DecidableEq, Repr

/-- `UserConfig.from_dict` (user_config.py lines 99-110): `user_id` is
required; timestamps default to `datetime.now()` (passed in as `now`);
watchlist and preferences parse through their own `from_dict`;
`custom_data` defaults to the empty dict and `version` to `"1.0"`. -/
def UserConfig.fromDict (data : ConfigDict) (now : String) : UserConfig :=
  { user_id := data.user_id
    created_at := data.created_at.getD now
    updated_at := data.updated_at.getD now
    watchlist := UserWatchlist.fromDict data.watchlist
    preferences := UserPreferences.fromDict data.preferences
    custom_data := data.custom_data.getD []
    version := data.version.getD "1.0" }

/-! ## Workspace creation and listing (`workspace/manager.py`) -/

/-- One entry of a workspace directory tree, by path relative to the
workspace root.  `jsonFile` holds the dictionary whose `json.dumps` is
the file's content. -/
inductive FsEntry where
  | dir (path : String)
  | file (path : String) (content : String)
  | jsonFile (path : String) (content : ConfigDict)
deriving DecidableEq, Repr

/-- `STANDARD_FILES["AGENTS.md"]` (manager.py lines 53-76) rendered by
`str.format` with the template values of `create_workspace`
(lines 190-196): `user_id` and `language`. -/
def agentsMdContent (uid language : String) : String :=
  "# Agent 配置\n\n## 用户 ID\n" ++ uid ++
  "\n\n## 角色\n你是用户的专属 AI 助手。\n\n## 工作流程\n" ++
  "1. 理解用户需求\n2. 使用工具收集信息\n3. 生成个性化回复\n4. 保存重要信息到记忆\n\n" ++
  "## 可用工具\n- `web_search`: 搜索网络信息\n- `web_fetch`: 获取网页内容\n" ++
  "- `read_file`: 读取文件\n- `write_file`: 写入文件\n- `my_system_api`: 查询业务系统\n\n" ++
  "## 输出格式\n根据用户偏好生成 " ++ language ++ " 格式的回复。\n"

/-- `STANDARD_FILES["USER.md"]` (manager.py lines 77-87) rendered with
`user_id`, `created_at`, `language`, `report_format`,
`notification_channels`. -/
def userMdContent (uid createdAt language reportFormat notificationChannels : String) :
    String :=
  "# 用户信息\n\n## 基本信息\n- 用户 ID: " ++ uid ++
  "\n- 创建时间: " ++ createdAt ++
  "\n- 语言偏好: " ++ language ++
  "\n\n## 个性化设置\n- 报告格式: " ++ reportFormat ++
  "\n- 通知方式: " ++ notificationChannels ++ "\n"

/-- `STANDARD_FILES["SOUL.md"]` (manager.py lines 88-106): no
placeholders. -/
def soulMdContent : String :=
  "# 人格设定\n\n我是你的专属 AI 助手，具有以下特质：\n\n## 性格\n" ++
  "- 专业且友好\n- 耐心细致\n- 善于分析和总结\n\n## 价值观\n" ++
  "- 用户隐私至上\n- 提供准确信息\n- 持续学习优化\n\n## 沟通风格\n" ++
  "- 简洁明了\n- 结构化表达\n- 根据用户偏好调整语言风格\n"

/-- `STANDARD_FILES["HEARTBEAT.md"]` (manager.py lines 107-120): no
placeholders. -/
def heartbeatMdContent : String :=
  "# 周期性任务\n\n## 定时报告\n- [ ] 生成每日市场简报\n" ++
  "- [ ] 检查关注标的价格变动\n- [ ] 汇总关注大V最新观点\n\n## 数据同步\n" ++
  "- [ ] 同步用户关注列表\n- [ ] 更新个性化推荐\n\n## 自定义任务\n" ++
  "（用户可以在这里添加自己的周期性任务）\n"

/-- The initial `memory/MEMORY.md` written by `create_workspace`
(manager.py lines 206-224), an f-string over `user_id` and the current
time. -/
def memoryMdContent (uid now : String) : String :=
  "# 长期记忆\n\n## 用户 " ++ uid ++ " 的记忆\n\n### 基本信息\n- 用户ID: " ++ uid ++
  "\n- 首次使用: " ++ now ++
  "\n\n### 偏好记录\n（AI 会从对话中学习和记录用户的偏好）\n\n### 重要事件\n" ++
  "（记录用户关注的重要事件和里程碑）\n\n### 历史对话要点\n" ++
  "（记录历史对话的关键信息和结论）\n"

/-- The `config` dictionary written to `config.json` by
`create_workspace` (manager.py lines 227-250): empty watchlist
sequences and the fixed preference values. -/
def initialConfigDict (uid now : String) : ConfigDict :=
  { user_id := uid
    created_at := some now
    updated_at := some now
    version := some "1.0"
    watchlist := some
      [("stocks", []), ("influencers", []), ("keywords", []), ("sectors", [])]
    preferences := some
      [("language", JsonVal.str "zh"),
       ("report_frequency", JsonVal.str "daily"),
       ("report_time", JsonVal.str "09:00"),
       ("report_format", JsonVal.str "markdown"),
       ("notification_channels", JsonVal.list ["push"])]
    custom_data := none }

/-- The workspace contents `create_workspace` builds
(manager.py lines 180-254), in creation order, with the default
`template_data=None` so the template values are `user_id`, `created_at`
(the current time), `language="zh"`, `report_format="markdown"`,
`notification_channels="push,email"` (lines 190-196): the four standard
directories, the four rendered standard documents, `memory/MEMORY.md`,
and `config.json`. -/
def templateWorkspace (uid now : String) : List FsEntry :=
  [FsEntry.dir "memory", FsEntry.dir "reports", FsEntry.dir "data",
   FsEntry.dir "skills",
   FsEntry.file "AGENTS.md" (agentsMdContent uid "zh"),
   FsEntry.file "USER.md" (userMdContent uid now "zh" "markdown" "push,email"),
   FsEntry.file "SOUL.md" soulMdContent,
   FsEntry.file "HEARTBEAT.md" heartbeatMdContent,
   FsEntry.file "memory/MEMORY.md" (memoryMdContent uid now),
   FsEntry.jsonFile "config.json" (initialConfigDict uid now)]

/-- `f"user_{user_id}"`, the directory name of a tenant's workspace
(manager.py line 136). -/
def workspaceDirName (uid : String) : String := "user_" ++ uid

/-- The base directory's state: directory name → workspace contents
(newest binding first). -/
def BaseFS : Type := List (String × List FsEntry)

/-- `create_workspace` (manager.py lines 158-254): if the workspace
already exists it is deleted whole (`shutil.rmtree`, lines 176-178),
then the directory is recreated and populated with the template
contents; returns the new base state and the workspace directory name. -/
def createWorkspaceFS (fs : BaseFS) (uid now : String) : BaseFS × String :=
  let fs :=
    if (List.lookup (workspaceDirName uid) fs).isSome then
      fs.filter (fun kv => kv.1 ≠ workspaceDirName uid)
    else fs
  ((workspaceDirName uid, templateWorkspace uid now) :: fs, workspaceDirName uid)

/-- `startswith` on explicit character lists (used instead of
`String.startsWith` so that everything reduces in the kernel). -/
def strStartsWith (s pre : String) : Bool :=
  pre.toList.isPrefixOf s.toList

/-- Python's `s.replace(pat, "")` for a nonempty pattern, on character
lists: scan left to right, deleting each non-overlapping occurrence of
the pattern.  `fuel` is an upper bound on the number of scan steps
(`s.length` suffices: every step consumes at least one character). -/
def pyRemoveAllAux (pat : List Char) : Nat → List Char → List Char
  | 0, s => s
  | fuel + 1, s =>
    if pat ≠ [] ∧ pat.isPrefixOf s then
      pyRemoveAllAux pat fuel (s.drop pat.length)
    else
      match s with
      | [] => []
      | c :: rest => c :: pyRemoveAllAux pat fuel rest

/-- Python's `s.replace(pat, "")` for a nonempty pattern. -/
def pyRemoveAll (s pat : String) : String :=
  (pyRemoveAllAux pat.toList s.toList.length s.toList).asString

/-- `WorkspaceManager.list_workspaces` (manager.py lines 295-306),
restricted to the `user_id` fields of its entries: every directory of the
base path whose name starts with `"user_"` yields
`item.name.replace("user_", "")` — note: `str.replace` removes every
occurrence of `"user_"`, not only the leading prefix. -/
def listWorkspacesUserIds (dirNames : List String) : List String :=
  (dirNames.filter (fun n => strStartsWith n "user_")).map
    (fun n => pyRemoveAll n "user_")

/-- `UserConfigManager.list_users` (user_config.py lines 307-320): same
filter, but `item.name[5:]` strips only the leading `"user_"` prefix
(the code comments that this is deliberate). -/
def listUsersUserIds (dirNames : List String) : List String :=
  (dirNames.filter (fun n => strStartsWith n "user_")).map
    (fun n => (n.toList.drop 5).asString)

/-! ## Concrete instances used by the witnesses -/

/-- A filesystem on which every workspace path exists. -/
def demoExists : String → Bool := fun _ => true

/-- A filesystem on which no workspace path exists. -/
def ghostExists : String → Bool := fun _ => false

/-- The loop state after switching the freshly constructed loop to tenant
`alice` (whose workspace exists). -/
def stateA : LoopState :=
  (switchWorkspace false "/ws" demoExists initialLoopState "alice").2

/-- A provider whose reply always requests one tool call. -/
def toolCallEnv : AgentEnv Unit :=
  { chat := fun _ => { content := none, toolCalls := [⟨"call_1", "noop", "\x7b\x7d"⟩] }
    buildMessages := fun _ _ => []
    addAssistantMessage := fun ms _ _ => ms
    executeTool := fun _ _ => "ok"
    addToolResult := fun ms _ _ => ms
    maxIterations := 20 }

/-- An empty session store. -/
def emptySessions : SessionsState := { store := [], saveTrace := [] }

/-- An attempt oracle that fails on every attempt. -/
def alwaysFailOracle : Nat → Except AttemptError String :=
  fun _ => Except.error (AttemptError.processFailure "boom")

/-- An attempt oracle that fails once and succeeds on the second
attempt. -/
def secondTryOracle : Nat → Except AttemptError String :=
  fun i => if i = 0 then Except.error (AttemptError.processFailure "boom")
           else Except.ok "the answer"

/-- A pre-existing workspace for tenant `t1` holding tenant state that is
not part of the creation template. -/
def priorWorkspace : List FsEntry :=
  [FsEntry.dir "memory", FsEntry.file "memory/notes.md" "secret notes"]

/-- A base directory in which tenant `t1` already has a workspace. -/
def priorFS : BaseFS := [(workspaceDirName "t1", priorWorkspace)]

/-! ## Helper lemmas -/

/-- If the provider's reply always carries tool calls, the loop never
exits early: it runs down its whole budget and never sets
`final_content`. -/
theorem agentLoopGo_all_tools {M : Type} (env : AgentEnv M)
    (h : ∀ ms, (env.chat ms).hasToolCalls = true) :
    ∀ (n it : Nat) (ms : List M),
      (agentLoopGo env n it ms).1 = it + n ∧ (agentLoopGo env n it ms).2.1 = none := by
  intro n
  induction n with
  | zero => intro it ms; simp [agentLoopGo]
  | succ k ih =>
    intro it ms
    simp only [agentLoopGo, h, if_pos]
    have := ih (it + 1) ((env.chat ms).toolCalls.foldl
      (fun ms' tc => env.addToolResult ms' tc (env.executeTool ms' tc))
      (env.addAssistantMessage ms (env.chat ms).content (env.chat ms).toolCalls))
    refine ⟨?_, this.2⟩
    rw [this.1]
    omega

/-- A switch to a tenant that is not active and whose workspace does not
exist raises `ValueError` and leaves the whole loop state untouched. -/
theorem switchWorkspace_not_found (cron : Bool) (base : String)
    (ex : String → Bool) (st : LoopState) (uid : String)
    (hne : st.currentUserId ≠ some uid)
    (hex : ex (getWorkspacePath base uid) = false) :
    switchWorkspace cron base ex st uid =
      (Except.error (tenantNotFoundMsg uid), st) := by
  have hslow : switchWorkspace cron base ex st uid =
      switchWorkspaceSlow cron base ex st uid := by
    unfold switchWorkspace
    cases hcu : st.currentUserId with
    | none => cases st.currentWorkspace <;> rfl
    | some cu =>
      cases hw : st.currentWorkspace with
      | none => rfl
      | some w =>
        have : cu ≠ uid := fun h => hne (by rw [hcu, h])
        simp [this]
  rw [hslow]
  unfold switchWorkspaceSlow
  simp [hex]

/-- If every attempt fails, the retry loop started at attempt `i` runs
all remaining attempts, sleeps `d * n` seconds for
`n = i+1, …, max_retries-1`, and raises the aggregate error carrying the
last attempt's cause. -/
theorem retryGo_all_fail (oracle : Nat → Except AttemptError String)
    (errs : Nat → AttemptError) (d : ℚ) (maxRetries : Nat)
    (hfail : ∀ i, i < maxRetries → oracle i = Except.error (errs i)) :
    ∀ (remaining i : Nat) (lastErr : Option AttemptError),
      remaining + i = maxRetries → i < maxRetries →
      retryGo oracle d maxRetries remaining i lastErr =
        ⟨maxRetries,
         (List.range' (i + 1) (maxRetries - 1 - i)).map (fun n => d * (n : ℚ)),
         Except.error ⟨maxRetries, some (errs (maxRetries - 1))⟩⟩ := by
  intro remaining
  induction remaining with
  | zero => intro i lastErr hsum hlt; omega
  | succ k ih =>
    intro i lastErr hsum hlt
    have hOi := hfail i hlt
    simp only [retryGo, hOi]
    by_cases hk : k = 0
    · subst hk
      have hns : ¬ (i < maxRetries - 1) := by omega
      rw [if_neg hns]
      have h0 : maxRetries - 1 - i = 0 := by omega
      have h1 : maxRetries - 1 = i := by omega
      have h2 : maxRetries = i + 1 := by omega
      simp [retryGo, h0, h1, h2]
    · have hlt2 : i + 1 < maxRetries := by omega
      have hsl : i < maxRetries - 1 := by omega
      have hrest := ih (i + 1) (some (errs i)) (by omega) hlt2
      rw [hrest, if_pos hsl]
      have hcount : maxRetries - 1 - i = (maxRetries - 1 - (i + 1)) + 1 := by omega
      rw [hcount, List.range'_succ]
      simp

/-- If the first success is at attempt `iSucc`, the retry loop started at
attempt `j ≤ iSucc` returns that success after `iSucc + 1` attempts with
sleeps `d * n` for `n = j+1, …, iSucc`. -/
theorem retryGo_first_success (oracle : Nat → Except AttemptError String)
    (errs : Nat → AttemptError) (d : ℚ) (maxRetries iSucc : Nat) (s : String)
    (hi : iSucc < maxRetries)
    (hfail : ∀ j, j < iSucc → oracle j = Except.error (errs j))
    (hok : oracle iSucc = Except.ok s) :
    ∀ (remaining j : Nat) (lastErr : Option AttemptError),
      remaining + j = maxRetries → j ≤ iSucc →
      retryGo oracle d maxRetries remaining j lastErr =
        ⟨iSucc + 1, (List.range' (j + 1) (iSucc - j)).map (fun n => d * (n : ℚ)),
         Except.ok s⟩ := by
  intro remaining
  induction remaining with
  | zero => intro j lastErr hsum hle; omega
  | succ k ih =>
    intro j lastErr hsum hle
    by_cases hj : j = iSucc
    · subst hj
      simp only [retryGo, hok]
      have h0 : j - j = 0 := by omega
      simp [h0, List.range']
    · have hjlt : j < iSucc := by omega
      have hOj := hfail j hjlt
      simp only [retryGo, hOj]
      have hsl : j < maxRetries - 1 := by omega
      have hrest := ih (j + 1) (some (errs j)) (by omega) (by omega)
      rw [hrest, if_pos hsl]
      have hcount : iSucc - j = (iSucc - (j + 1)) + 1 := by omega
      rw [hcount, List.range'_succ]
      simp

/-! ## Claim theorems -/

/-- C1: for every invocation of `process_direct` with maximum iterations
`k`, if the model's reply carries one or more tool calls on every round,
the loop terminates after exactly `k` iterations and returns the fixed
fallback message as the final content. -/
theorem process_direct_iteration_bound {M : Type} (env : AgentEnv M)
    (ss : SessionsState) (key content : String)
    (h : ∀ ms, (env.chat ms).hasToolCalls = true) :
    (processDirect env ss key content).iterations = env.maxIterations ∧
    (processDirect env ss key content).response = fallbackMessage := by
  have hl := agentLoopGo_all_tools env h env.maxIterations 0
    (env.buildMessages (getOrCreate ss key) content)
  unfold processDirect
  simp [hl.1, hl.2]

/-- Witness for C1: a provider that always requests a tool call, with the
default `max_iterations = 20`, makes the loop run exactly 20 iterations
and return the fallback message. -/
theorem process_direct_iteration_bound_witness :
    (processDirect toolCallEnv emptySessions "cli:direct" "hello").iterations = 20 ∧
    (processDirect toolCallEnv emptySessions "cli:direct" "hello").response =
      fallbackMessage :=
  process_direct_iteration_bound toolCallEnv emptySessions "cli:direct" "hello"
    (fun _ => rfl)

/-- C2: after `switch_workspace(B)` following `switch_workspace(A)` with
`A ≠ B`, every tenant-scoped component (ContextBuilder, SessionManager,
ToolRegistry, SubagentManager) is a freshly constructed instance bound to
B's workspace path — none of the previously bound objects survives — and
the standard tool set (with the shell tool's working directory set to B's
workspace) is registered on the fresh registry. -/
theorem switch_workspace_rebuilds_components (cron : Bool) (base : String)
    (ex : String → Bool) (st : LoopState) (A B : String)
    (hA : st.currentUserId = some A) (hAB : A ≠ B)
    (hwf : IdsWellFormed st)
    (hex : ex (getWorkspacePath base B) = true) :
    ∃ st', switchWorkspace cron base ex st B =
        (Except.ok (getWorkspacePath base B), st') ∧
      st'.currentUserId = some B ∧
      st'.currentWorkspace = some (getWorkspacePath base B) ∧
      st'.context = some ⟨st.nextId, getWorkspacePath base B⟩ ∧
      st'.sessions = some ⟨st.nextId + 1, getWorkspacePath base B⟩ ∧
      st'.tools = some ⟨st.nextId + 2,
        standardTools (some (getWorkspacePath base B)) cron⟩ ∧
      st'.subagents = some ⟨st.nextId + 3, getWorkspacePath base B⟩ ∧
      ∀ j ∈ oldComponentIds st', j ∉ oldComponentIds st := by
  have hslow : switchWorkspace cron base ex st B =
      switchWorkspaceSlow cron base ex st B := by
    unfold switchWorkspace
    cases hw : st.currentWorkspace with
    | none => rw [hA]
    | some w => rw [hA]; simp [hAB]
  rw [hslow]
  unfold switchWorkspaceSlow
  simp only [hex]
  refine ⟨{ currentUserId := some B,
            currentWorkspace := some (getWorkspacePath base B),
            workspaceAttr := some (getWorkspacePath base B),
            context := some ⟨st.nextId, getWorkspacePath base B⟩,
            sessions := some ⟨st.nextId + 1, getWorkspacePath base B⟩,
            tools := some ⟨st.nextId + 2,
              standardTools (some (getWorkspacePath base B)) cron⟩,
            subagents := some ⟨st.nextId + 3, getWorkspacePath base B⟩,
            nextId := st.nextId + 4 }, ?_, rfl, rfl, rfl, rfl, rfl, rfl, ?_⟩
  · rfl
  · intro j hj hmem
    have h := hwf j hmem
    simp [oldComponentIds] at hj
    omega

/-- Witness for C2: switching from tenant `alice` to tenant `bob`
reconstructs all four components, bound to bob's workspace, with fresh
identities. -/
theorem switch_workspace_rebuilds_components_witness :
    ∃ st', switchWorkspace false "/ws" demoExists stateA "bob" =
        (Except.ok (getWorkspacePath "/ws" "bob"), st') ∧
      st'.currentUserId = some "bob" ∧
      st'.currentWorkspace = some (getWorkspacePath "/ws" "bob") ∧
      st'.context = some ⟨stateA.nextId, getWorkspacePath "/ws" "bob"⟩ ∧
      st'.sessions = some ⟨stateA.nextId + 1, getWorkspacePath "/ws" "bob"⟩ ∧
      st'.tools = some ⟨stateA.nextId + 2,
        standardTools (some (getWorkspacePath "/ws" "bob")) false⟩ ∧
      st'.subagents = some ⟨stateA.nextId + 3, getWorkspacePath "/ws" "bob"⟩ ∧
      ∀ j ∈ oldComponentIds st', j ∉ oldComponentIds stateA :=
  switch_workspace_rebuilds_components false "/ws" demoExists stateA
    "alice" "bob" rfl (by decide) (by unfold IdsWellFormed; decide) rfl

/-- C3: if every attempt of `_call_llm_with_retry` fails, it makes
exactly `max_retries` attempts, sleeps `retry_delay * n` seconds between
attempts for `n = 1, …, max_retries - 1` (linear backoff, no wait after
the last attempt), and raises the aggregate error carrying the last
underlying cause; if an attempt succeeds, its result is returned with no
further attempts. -/
theorem call_llm_with_retry_spec :
    (∀ (oracle : Nat → Except AttemptError String) (errs : Nat → AttemptError)
       (maxRetries : Nat) (d : ℚ),
       1 ≤ maxRetries →
       (∀ i, i < maxRetries → oracle i = Except.error (errs i)) →
       callLLMWithRetry oracle maxRetries d =
         ⟨maxRetries,
          (List.range' 1 (maxRetries - 1)).map (fun n => d * (n : ℚ)),
          Except.error ⟨maxRetries, some (errs (maxRetries - 1))⟩⟩) ∧
    (∀ (oracle : Nat → Except AttemptError String) (errs : Nat → AttemptError)
       (maxRetries : Nat) (d : ℚ) (iSucc : Nat) (s : String),
       iSucc < maxRetries →
       (∀ j, j < iSucc → oracle j = Except.error (errs j)) →
       oracle iSucc = Except.ok s →
       callLLMWithRetry oracle maxRetries d =
         ⟨iSucc + 1, (List.range' 1 iSucc).map (fun n => d * (n : ℚ)),
          Except.ok s⟩) := by
  constructor
  · intro oracle errs maxRetries d h1 hfail
    have := retryGo_all_fail oracle errs d maxRetries hfail maxRetries 0 none
      (by omega) (by omega)
    simpa [callLLMWithRetry] using this
  · intro oracle errs maxRetries d iSucc s hi hfail hok
    have := retryGo_first_success oracle errs d maxRetries iSucc s hi hfail hok
      maxRetries 0 none (by omega) (by omega)
    simpa [callLLMWithRetry] using this

/-- Witness for C3: with the defaults `max_retries = 3` and
`retry_delay = 1.0`, an always-failing call makes 3 attempts with waits
of 1·1 and 1·2 seconds and then raises carrying the last cause, while a
call succeeding on the second attempt stops after 2 attempts. -/
theorem call_llm_with_retry_spec_witness :
    callLLMWithRetry alwaysFailOracle 3 1 =
      ⟨3, (List.range' 1 2).map (fun n => (1 : ℚ) * (n : ℚ)),
       Except.error ⟨3, some (AttemptError.processFailure "boom")⟩⟩ ∧
    callLLMWithRetry secondTryOracle 3 1 =
      ⟨1 + 1, (List.range' 1 1).map (fun n => (1 : ℚ) * (n : ℚ)),
       Except.ok "the answer"⟩ := by
  constructor
  · exact call_llm_with_retry_spec.1 alwaysFailOracle
      (fun _ => AttemptError.processFailure "boom") 3 1 (by omega)
      (fun i _ => rfl)
  · exact call_llm_with_retry_spec.2 secondTryOracle
      (fun _ => AttemptError.processFailure "boom") 3 1 1 "the answer" (by omega)
      (fun j hj => by
        have : j = 0 := by omega
        subst this
        rfl) rfl

/-- C4: one invocation of `process_direct` appends exactly the original
user turn and the final content as an assistant turn to the session, and
persists the session exactly once — the single recorded save already
contains the final content, so it happens after the loop terminated,
never mid-loop. -/
theorem process_direct_saves_exactly_once {M : Type} (env : AgentEnv M)
    (ss : SessionsState) (key content : String) :
    (processDirect env ss key content).sessions.saveTrace =
      ss.saveTrace ++ [(key, getOrCreate ss key ++
        [("user", content),
         ("assistant", (processDirect env ss key content).response)])] ∧
    getOrCreate (processDirect env ss key content).sessions key =
      getOrCreate ss key ++
        [("user", content),
         ("assistant", (processDirect env ss key content).response)] := by
  constructor
  · simp [processDirect, saveSession, List.append_assoc]
  · simp [processDirect, saveSession, getOrCreate, List.lookup_cons,
      List.append_assoc]

/-- C5: switching to the already-active tenant is a no-op: it returns the
cached workspace path and the state — including all component
instances — is exactly the one from before the call. -/
theorem switch_workspace_idempotent_fast_path (cron : Bool) (base : String)
    (ex : String → Bool) (st : LoopState) (A w : String)
    (h1 : st.currentUserId = some A) (h2 : st.currentWorkspace = some w) :
    switchWorkspace cron base ex st A = (Except.ok w, st) := by
  simp [switchWorkspace, h1, h2]

/-- Witness for C5: re-activating `alice` right after switching to her
workspace returns the cached path and the identical state. -/
theorem switch_workspace_idempotent_fast_path_witness :
    switchWorkspace false "/ws" demoExists stateA "alice" =
      (Except.ok (getWorkspacePath "/ws" "alice"), stateA) :=
  switch_workspace_idempotent_fast_path false "/ws" demoExists stateA
    "alice" (getWorkspacePath "/ws" "alice") rfl rfl

/-- C6: switching to a tenant that is not already active and whose
workspace does not exist on disk raises the tenant-not-found
`ValueError` and leaves the loop state — active tenant and all bound
components — exactly unchanged, with nothing constructed. -/
theorem switch_workspace_tenant_not_found (cron : Bool) (base : String)
    (ex : String → Bool) (st : LoopState) (uid : String)
    (hne : st.currentUserId ≠ some uid)
    (hex : ex (getWorkspacePath base uid) = false) :
    switchWorkspace cron base ex st uid =
      (Except.error (tenantNotFoundMsg uid), st) :=
  switchWorkspace_not_found cron base ex st uid hne hex

/-- Witness for C6: activating the unprovisioned tenant `ghost` on a
fresh loop raises and leaves the initial state untouched. -/
theorem switch_workspace_tenant_not_found_witness :
    switchWorkspace false "/ws" ghostExists initialLoopState "ghost" =
      (Except.error (tenantNotFoundMsg "ghost"), initialLoopState) :=
  switch_workspace_tenant_not_found false "/ws" ghostExists initialLoopState
    "ghost" (by decide) rfl

/-- Counterexample to C7 as stated: an activation failure for a tenant
whose workspace does not exist (the `TenantNotFound` `ValueError` raised
by `switch_workspace`) is NOT surfaced after the first attempt — the
wrapper's generic `except Exception` catches it and runs all 3 attempts
before raising. -/
theorem tenant_not_found_is_retried_counterexample :
    (callLLMWithRetry
      (fun _ => attemptViaLoop false "/ws" ghostExists initialLoopState "ghost"
        (Except.ok "unused")) 3 1).attemptsMade = 3 ∧
    (callLLMWithRetry
      (fun _ => attemptViaLoop false "/ws" ghostExists initialLoopState "ghost"
        (Except.ok "unused")) 3 1).result =
      Except.error ⟨3, some (AttemptError.activation (tenantNotFoundMsg "ghost"))⟩ ∧
    (3 : Nat) ≠ 1 :=
  ⟨rfl, rfl, by omega⟩

/-- C7 (amended): a `TenantNotFound` activation failure inside
`_call_llm_with_retry` is caught by the generic exception handler and
retried like any other failure; the wrapper makes all `max_retries`
attempts and only then raises the aggregate error, which carries the
`TenantNotFound` cause. -/
theorem tenant_not_found_retried (cron : Bool) (base : String)
    (ex : String → Bool) (st : LoopState) (uid : String)
    (proc : Except AttemptError String) (maxRetries : Nat) (d : ℚ)
    (hne : st.currentUserId ≠ some uid)
    (hex : ex (getWorkspacePath base uid) = false)
    (h1 : 1 ≤ maxRetries) :
    callLLMWithRetry (fun _ => attemptViaLoop cron base ex st uid proc)
        maxRetries d =
      ⟨maxRetries,
       (List.range' 1 (maxRetries - 1)).map (fun n => d * (n : ℚ)),
       Except.error ⟨maxRetries,
         some (AttemptError.activation (tenantNotFoundMsg uid))⟩⟩ := by
  have hattempt : ∀ i : Nat,
      (fun _ : Nat => attemptViaLoop cron base ex st uid proc) i =
        Except.error (AttemptError.activation (tenantNotFoundMsg uid)) := by
    intro i
    unfold attemptViaLoop
    rw [switchWorkspace_not_found cron base ex st uid hne hex]
  have := retryGo_all_fail
    (fun _ => attemptViaLoop cron base ex st uid proc)
    (fun _ => AttemptError.activation (tenantNotFoundMsg uid)) d maxRetries
    (fun i _ => hattempt i) maxRetries 0 none (by omega) (by omega)
  simpa [callLLMWithRetry] using this

/-- Witness for C7 (amended): the unprovisioned tenant `ghost`, with the
default `max_retries = 3` and `retry_delay = 1.0`. -/
theorem tenant_not_found_retried_witness :
    callLLMWithRetry
        (fun _ => attemptViaLoop false "/ws" ghostExists initialLoopState "ghost"
          (Except.ok "unused")) 3 1 =
      ⟨3, (List.range' 1 2).map (fun n => (1 : ℚ) * (n : ℚ)),
       Except.error ⟨3,
         some (AttemptError.activation (tenantNotFoundMsg "ghost"))⟩⟩ :=
  tenant_not_found_retried false "/ws" ghostExists initialLoopState "ghost"
    (Except.ok "unused") 3 1 (by decide) rfl (by omega)

/-- C8: after `create_workspace(user_id)` for any tenant id, the
workspace contains the four standard subdirectories and the four standard
documents, plus `memory/MEMORY.md`, and a `config.json` that parses into
a tenant configuration with all four watchlist sequences empty and the
default preferences. -/
theorem create_workspace_schema (fs : BaseFS) (uid now : String) :
    ∃ ws, List.lookup (workspaceDirName uid) (createWorkspaceFS fs uid now).1 =
        some ws ∧
      FsEntry.dir "memory" ∈ ws ∧ FsEntry.dir "reports" ∈ ws ∧
      FsEntry.dir "data" ∈ ws ∧ FsEntry.dir "skills" ∈ ws ∧
      (∃ c, FsEntry.file "AGENTS.md" c ∈ ws) ∧
      (∃ c, FsEntry.file "USER.md" c ∈ ws) ∧
      (∃ c, FsEntry.file "SOUL.md" c ∈ ws) ∧
      (∃ c, FsEntry.file "HEARTBEAT.md" c ∈ ws) ∧
      (∃ c, FsEntry.file "memory/MEMORY.md" c ∈ ws) ∧
      (∃ cfg, FsEntry.jsonFile "config.json" cfg ∈ ws ∧
        (UserConfig.fromDict cfg now).watchlist = UserWatchlist.empty ∧
        (UserConfig.fromDict cfg now).preferences = UserPreferences.defaults) := by
  refine ⟨templateWorkspace uid now, ?_, ?_, ?_, ?_, ?_,
    ⟨agentsMdContent uid "zh", ?_⟩,
    ⟨userMdContent uid now "zh" "markdown" "push,email", ?_⟩,
    ⟨soulMdContent, ?_⟩, ⟨heartbeatMdContent, ?_⟩,
    ⟨memoryMdContent uid now, ?_⟩,
    ⟨initialConfigDict uid now, ?_, rfl, rfl⟩⟩
  · unfold createWorkspaceFS
    split <;> simp [List.lookup]
  all_goals simp [templateWorkspace]

/-- C9: `create_workspace(user_id)` on a tenant whose workspace already
exists does not fail and is not a no-op: whatever the workspace held
before, afterwards it holds exactly the fresh template contents, so every
previously stored entry that is not part of the template is gone. -/
theorem create_workspace_resets_existing (fs : BaseFS) (uid now : String) :
    List.lookup (workspaceDirName uid) (createWorkspaceFS fs uid now).1 =
      some (templateWorkspace uid now) ∧
    ∀ e : FsEntry, e ∉ templateWorkspace uid now →
      e ∉ (List.lookup (workspaceDirName uid)
            (createWorkspaceFS fs uid now).1).getD [] := by
  have hlook : List.lookup (workspaceDirName uid) (createWorkspaceFS fs uid now).1 =
      some (templateWorkspace uid now) := by
    unfold createWorkspaceFS
    split <;> simp [List.lookup]
  refine ⟨hlook, ?_⟩
  intro e hnot
  rw [hlook]
  simpa using hnot

/-- Witness for C9: tenant `t1` already has a workspace holding
`memory/notes.md`; after re-creation that file is gone. -/
theorem create_workspace_resets_existing_witness :
    FsEntry.file "memory/notes.md" "secret notes" ∉
      (List.lookup (workspaceDirName "t1")
        (createWorkspaceFS priorFS "t1" "2026-01-01T00:00:00").1).getD [] :=
  (create_workspace_resets_existing priorFS "t1" "2026-01-01T00:00:00").2
    (FsEntry.file "memory/notes.md" "secret notes") (by decide)

/-- C10 (code bug): `list_workspaces` maps the directory name
`user_<u>` back to a user id with `name.replace("user_", "")`, which
removes every occurrence of `"user_"`, so for the tenant id `a_user_b`
(directory `user_a_user_b`) the listed `user_id` is `a_b`, not
`a_user_b`; `UserConfigManager.list_users` strips only the leading
prefix (as its own comment says is intended) and returns `a_user_b`. -/
theorem list_workspaces_mangles_user_id :
    listWorkspacesUserIds [workspaceDirName "a_user_b"] = ["a_b"] ∧
    listUsersUserIds [workspaceDirName "a_user_b"] = ["a_user_b"] ∧
    ("a_b" : String) ≠ "a_user_b" := by
  refine ⟨by decide, by decide, by decide⟩
